import Mathlib

/-!
Verification of the taxi-driver client core against its source.

The definitions below shallowly embed the Python source of the repository:

* `APIService` (src/app/src/main/python/services/api_service_fixed.py):
  session state, credential store, the retrying transport `_make_request`,
  the single-shot transport `_fetch_with_logging` / `_auth_fetch`, and the
  endpoint methods (`login`, `logout`, `check_order_pool`, ...).
* `MapScreen.check_order_pool` (src/app/src/main/python/screens/home_screen.py):
  the order-pool reconciler driving the one-candidate order dialog.

JSON payloads are modelled by the inductive `JVal`; Python dictionary access
(`d.get(k)` on a value that may not be a dict, which raises `AttributeError`)
is modelled in an `Except String` monad so that the `try/except` blocks of the
source keep their real control flow.  Machine floats never carry program logic
here; JSON numbers are embedded as rationals.
-/

set_option maxHeartbeats 1000000

set_option linter.unusedVariables false

/-- JSON-like values exchanged with the backend (numbers as rationals). -/
inductive JVal where
  | null : JVal
  | bool : Bool → JVal
  | num : ℚ → JVal
  | str : String → JVal
  | arr : List JVal → JVal
  | obj : List (String × JVal) → JVal
deriving Repr

/-- Python truthiness of a JSON value (`if v:`). -/
def pyTruthy : JVal → Bool
  | .null => false
  | .bool b => b
  | .num n => n != 0
  | .str s => s != ""
  | .arr xs => !xs.isEmpty
  | .obj fs => !fs.isEmpty

/-- Truthiness of a `d.get(k)` result (`None` when the key is absent). -/
def truthyO : Option JVal → Bool
  | none => false
  | some v => pyTruthy v

/-- Pure dictionary lookup (`d.get(k)` when `d` is known to be a dict). -/
def jget : JVal → String → Option JVal
  | .obj fs, k => fs.lookup k
  | _, _ => none

/-- Message of the `AttributeError` raised by `.get` on a non-dict value. -/
def attrErrMsg : String := "AttributeError: object has no attribute get"

/-- `d.get(k)`: returns the value or `None`, raising on non-dict receivers. -/
def dGet : JVal → String → Except String (Option JVal)
  | .obj fs, k => .ok (fs.lookup k)
  | _, _ => .error attrErrMsg

/-- `d.get(k, default)`: the default replaces only a missing key. -/
def dGetD (v : JVal) (k : String) (dflt : JVal) : Except String JVal := do
  let o ← dGet v k
  pure (o.getD dflt)

/-- `isinstance(d.get(k), list)`. -/
def isListO : Option JVal → Bool
  | some (.arr _) => true
  | _ => false

/-- The list held by a `d.get(k)` result (callers guard with `isListO`). -/
def listO : Option JVal → List JVal
  | some (.arr xs) => xs
  | _ => []

/-- Python `d.get(k) == "lit"`: true only when the value is that string. -/
def isStrEqO (o : Option JVal) (s : String) : Bool :=
  match o with
  | some (.str t) => t == s
  | _ => false

example : pyTruthy (.arr []) = false := rfl
example : dGet (.arr []) ("x") = .error attrErrMsg := rfl
example : jget (.obj [(("a"), .num 1)]) ("a") = some (.num 1) := rfl

/-! ### Python string primitives

Python strings are sequences of characters; the operations the source uses
(`strip`, `endswith`, `startswith`, `s[:-1]`, concatenation) are embedded
through `String.data`. -/

/-- Python `s.startswith(p)`. -/
def pyStartsWith (s p : String) : Bool := p.data.isPrefixOf s.data

/-- Python `s.endswith(p)`. -/
def pyEndsWith (s p : String) : Bool := p.data.isSuffixOf s.data

/-- Python `s[:-1]`. -/
def pyDropLast (s : String) : String := String.mk s.data.dropLast

/-- Python `s.strip()`. -/
def pyStrip (s : String) : String :=
  String.mk (((s.data.dropWhile Char.isWhitespace).reverse.dropWhile
    Char.isWhitespace).reverse)

/-- Python `a or b` over optional strings (`None` and `""` are falsy). -/
def pyOrStr (a : Option String) (b : String) : String :=
  match a with
  | some s => if s = "" then b else s
  | none => b

/-- Stringify an optional string the way a Python f-string does (`None`). -/
def pyShowOpt : Option String → String
  | some s => s
  | none => "None"

/-! ### Base64 and the Basic-auth header -/

/-- The standard base64 alphabet. -/
def b64Alphabet : String :=
  "ABCDEFGHIJKLMNOPQRSTUVWXYZabcdefghijklmnopqrstuvwxyz0123456789+/"

/-- Character for a 6-bit group. -/
def b64Char (n : Nat) : Char := b64Alphabet.data.getD n ('A')

/-- Encode a byte list (3-byte groups, `=`-padded). -/
def b64Chunks : List Nat → List Char
  | [] => []
  | [a] => [b64Char (a / 4), b64Char (a % 4 * 16), '=', '=']
  | [a, b] => [b64Char (a / 4), b64Char (a % 4 * 16 + b / 16),
               b64Char (b % 16 * 4), '=']
  | a :: b :: c :: rest =>
      b64Char (a / 4) :: b64Char (a % 4 * 16 + b / 16) ::
      b64Char (b % 16 * 4 + c / 64) :: b64Char (c % 64) :: b64Chunks rest

/-- UTF-8 bytes of one character. -/
def charUtf8 (c : Char) : List Nat :=
  let n := c.toNat
  if n < 128 then [n]
  else if n < 2048 then [192 + n / 64, 128 + n % 64]
  else if n < 65536 then [224 + n / 4096, 128 + n / 64 % 64, 128 + n % 64]
  else [240 + n / 262144, 128 + n / 4096 % 64, 128 + n / 64 % 64, 128 + n % 64]

/-- `base64.b64encode(s.encode()).decode()`. -/
def b64Encode (s : String) : String :=
  String.mk (b64Chunks (s.data.map charUtf8).flatten)

/-- `f'Basic {encoded_credentials}'` built from `f"{phone}:{password}"`. -/
def authHeaderOf (phone password : String) : String :=
  "Basic " ++ b64Encode (phone ++ (":") ++ password)

example : b64Encode ("abc") = "YWJj" := rfl
example : b64Encode ("ab") = "YWI=" := rfl

/-! ### Session state and credential store (`APIService`) -/

/-- The hardcoded demo base URL of `APIService`. -/
def defaultBaseUrl : String :=
  "https://e6db2f06-15c4-4633-bd30-7fbd9c8200b1-00-l2xqyupphiyt.riker.replit.dev"

/-- The mutable session fields of `APIService`. -/
structure ApiState where
  is_logged_in : Bool
  base_url : Option String
  auth_header : Option String
  phone : Option String
  password : Option String
  driver_id : Option Int
deriving DecidableEq, Repr

/-- `APIService.__init__`: fresh state. -/
def apiInitState : ApiState :=
  { is_logged_in := false, base_url := some defaultBaseUrl,
    auth_header := none, phone := none, password := none, driver_id := none }

/-- `APIService.reset`. -/
def resetState : ApiState :=
  { is_logged_in := false, base_url := none, auth_header := none,
    phone := none, password := none, driver_id := none }

/-- The `keyring` credential store for service `"taxi_driver"`, keyed by name. -/
def Store := String → Option String

/-- `keyring.set_password("taxi_driver", k, v)`. -/
def Store.set (s : Store) (k v : String) : Store :=
  fun k' => if k' = k then some v else s k'

/-- `keyring.delete_password("taxi_driver", k)` (absence is swallowed). -/
def Store.del (s : Store) (k : String) : Store :=
  fun k' => if k' = k then none else s k'

/-- A store with no saved entries. -/
def emptyStore : Store := fun _ => none

/-- Credential-store keys used by the source. -/
def kPhoneKey : String := "phone"

def kPasswordKey : String := "password"

def kApiUrlKey : String := "api_url"

/-! ### JSON keys and messages used by the source -/

def kSuccess : String := "success"

def kData : String := "data"

def kOrders : String := "orders"

def kStatus : String := "status"

def kMessage : String := "message"

def kError : String := "error"

def kDriver : String := "driver"

def kOrderId : String := "order_id"

def kReason : String := "reason"

def kDriverId : String := "driver_id"

def kPhone : String := "phone"

def kBaseUrl : String := "base_url"

def kId : String := "id"

def msgNotLoggedIn : String := "Nie zalogowano"

def msgUrlEmpty : String := "Nowy adres URL nie może być pusty"

def strSuccess : String := "success"

def httpPre : String := "http://"

def httpsPre : String := "https://"

def slashStr : String := "/"

def doubleSlashStr : String := "//"

/-! ### Single-shot transport: `_fetch_with_logging` and `_auth_fetch`

One HTTP fetch is abstracted by its observable outcome: the request raised a
network exception, or it produced a JSON body, or a non-JSON text body with an
`ok` flag.  `_fetch_with_logging` returns `{"response": ..., "data": ...}` in
the source; every caller immediately projects `result.get('data', {})`, so the
embedding returns the `data` component. -/

inductive FetchOutcome where
  | raise : String → FetchOutcome
  | jsonBody : JVal → FetchOutcome
  | textBody : Bool → String → FetchOutcome

/-- `APIService._fetch_with_logging` (`data` component; re-raises errors). -/
def fetch_with_logging : FetchOutcome → Except String JVal
  | .raise m => .error m
  | .jsonBody v => .ok v
  | .textBody ok t => .ok (.obj [(kSuccess, .bool ok), (kMessage, .str t)])

/-- The `{"success": False, "message": "Nie zalogowano"}` early return. -/
def notLoggedInResp : JVal :=
  .obj [(kSuccess, .bool false), (kMessage, .str msgNotLoggedIn)]

/-- URL used by `_auth_fetch` (falls back to the demo URL when unset). -/
def authFetchUrl (st : ApiState) (endpoint : String) : String :=
  (match st.base_url with
   | some u => if u = "" then defaultBaseUrl else u
   | none => defaultBaseUrl) ++ endpoint

/-- `APIService._auth_fetch`: fails fast when logged out, otherwise performs
exactly one fetch and never raises (its `except` turns an exception into
`{"success": False, "message": str(error)}`).  The second component lists the
URLs of the HTTP requests actually issued. -/
def auth_fetch (st : ApiState) (endpoint : String) (fetch : FetchOutcome) :
    JVal × List String :=
  if st.is_logged_in = false then (notLoggedInResp, [])
  else
    match fetch_with_logging fetch with
    | .ok d => (d, [authFetchUrl st endpoint])
    | .error m =>
        (.obj [(kSuccess, .bool false), (kMessage, .str m)],
         [authFetchUrl st endpoint])

/-- `try`/`except` at a method boundary: an uncaught error is mapped by the
handler to the method's failure dictionary. -/
def catchJ (x : Except String JVal) (h : String → JVal) : JVal :=
  match x with
  | .ok v => v
  | .error m => h m

/-! ### Endpoint methods of `APIService`

Each method returns its normalized dictionary together with the list of HTTP
request URLs it issued. -/

/-- `{"success": True, "data": [...]}`. -/
def poolOk (l : List JVal) : JVal :=
  .obj [(kSuccess, .bool true), (kData, .arr l)]

/-- The `except` handler of the two listing endpoints:
`{"success": False, "message": str(error), "data": []}`. -/
def poolFailHandler : String → JVal := fun m =>
  .obj [(kSuccess, .bool false), (kMessage, .str m), (kData, .arr [])]

/-- Endpoint of `check_order_pool`. -/
def poolEndpoint : String := "/api/driver2/15/pool"

/-- Normalization body of `check_order_pool` (inside its `try`). -/
def check_order_pool_body (response : JVal) : Except String JVal := do
  let suc ← dGet response kSuccess
  let dat ← dGet response kData
  let sta ← dGet response kStatus
  let ords ← dGet response kOrders
  if truthyO suc && isListO dat then
    pure (.obj [(kSuccess, .bool true), (kData, .arr (listO dat))])
  else if isStrEqO sta strSuccess && isListO ords then
    pure (.obj [(kSuccess, .bool true), (kData, .arr (listO ords))])
  else if truthyO suc && truthyO ords then
    pure (.obj [(kSuccess, .bool true), (kData, (ords.getD .null))])
  else
    pure (.obj [(kSuccess, .bool true), (kData, .arr [])])

/-- `APIService.check_order_pool`. -/
def check_order_pool (st : ApiState) (fetch : FetchOutcome) :
    JVal × List String :=
  let (response, reqs) := auth_fetch st poolEndpoint fetch
  (catchJ (check_order_pool_body response) poolFailHandler, reqs)

/-- Normalization body of `get_current_orders` (inside its `try`). -/
def get_current_orders_body (response : JVal) : Except String JVal := do
  let suc ← dGet response kSuccess
  let dat ← dGet response kData
  let sta ← dGet response kStatus
  let ords ← dGet response kOrders
  if truthyO suc && isListO dat then
    pure (.obj [(kSuccess, .bool true), (kData, .arr (listO dat))])
  else if isStrEqO sta strSuccess && isListO ords then
    pure (.obj [(kSuccess, .bool true), (kData, .arr (listO ords))])
  else
    pure (.obj [(kSuccess, .bool true), (kData, .arr [])])

/-- `APIService.get_current_orders`. -/
def get_current_orders (st : ApiState) (fetch : FetchOutcome) :
    JVal × List String :=
  let (response, reqs) := auth_fetch st ("/api/driver2/orders/current") fetch
  (catchJ (get_current_orders_body response) poolFailHandler, reqs)

/-- Body shared by the order-action methods: on truthy `success` return the
given success dictionary, otherwise fail with the server message or the
method's default message. -/
def order_action_body (response : JVal) (okDict : JVal) (defaultMsg : String) :
    Except String JVal := do
  let suc ← dGet response kSuccess
  if truthyO suc then
    pure okDict
  else do
    let m ← dGetD response kMessage (.str defaultMsg)
    pure (.obj [(kSuccess, .bool false), (kMessage, m)])

/-- Failure dictionary `{"success": False, "message": str(error)}`. -/
def failMsg (m : String) : JVal :=
  .obj [(kSuccess, .bool false), (kMessage, .str m)]

/-- `APIService.accept_order`. -/
def accept_order (st : ApiState) (fetch : FetchOutcome) (order_id : Int) :
    JVal × List String :=
  let (response, reqs) := auth_fetch st
    ("/api/driver2/orders/" ++ toString order_id ++ "/accept") fetch
  (catchJ (order_action_body response
      (.obj [(kSuccess, .bool true), (kOrderId, .num order_id)])
      ("Błąd akceptacji")) failMsg, reqs)

/-- `APIService.start_order`. -/
def start_order (st : ApiState) (fetch : FetchOutcome) (order_id : Int) :
    JVal × List String :=
  let (response, reqs) := auth_fetch st
    ("/api/driver2/orders/" ++ toString order_id ++ "/start") fetch
  (catchJ (order_action_body response (.obj [(kSuccess, .bool true)])
      ("Błąd rozpoczęcia")) failMsg, reqs)

/-- `APIService.complete_order`. -/
def complete_order (st : ApiState) (fetch : FetchOutcome) (order_id : Int) :
    JVal × List String :=
  let (response, reqs) := auth_fetch st
    ("/api/driver2/orders/" ++ toString order_id ++ "/complete") fetch
  (catchJ (order_action_body response (.obj [(kSuccess, .bool true)])
      ("Błąd zakończenia")) failMsg, reqs)

/-- `APIService.cancel_order`. -/
def cancel_order (st : ApiState) (fetch : FetchOutcome) (order_id : Int)
    (reason : String) : JVal × List String :=
  let (response, reqs) := auth_fetch st
    ("/api/driver2/orders/" ++ toString order_id ++ "/cancel") fetch
  (catchJ (order_action_body response
      (.obj [(kSuccess, .bool true), (kReason, .str reason)])
      ("Błąd anulowania")) failMsg, reqs)

/-- `APIService.update_driver_status`. -/
def update_driver_status (st : ApiState) (fetch : FetchOutcome)
    (status : String) : JVal × List String :=
  let (response, reqs) := auth_fetch st ("/api/driver2/status") fetch
  (catchJ (order_action_body response (.obj [(kSuccess, .bool true)])
      ("Błąd aktualizacji statusu")) failMsg, reqs)

/-- `APIService.update_location` (coordinates as exact rationals). -/
def update_location (st : ApiState) (fetch : FetchOutcome)
    (latitude longitude : ℚ) : JVal × List String :=
  let (response, reqs) := auth_fetch st ("/api/driver2/location") fetch
  (catchJ (order_action_body response (.obj [(kSuccess, .bool true)])
      ("Błąd aktualizacji lokalizacji")) failMsg, reqs)

/-- Optional driver id as a JSON value (`None` becomes JSON null). -/
def jOfOptInt : Option Int → JVal
  | some n => .num n
  | none => .null

/-- Optional string field as a JSON value. -/
def jOfOptStr : Option String → JVal
  | some s => .str s
  | none => .null

/-- The fallback profile dictionary built from the session fields. -/
def profileFallback (st : ApiState) : JVal :=
  .obj [(kId, jOfOptInt st.driver_id),
        (kPhone, jOfOptStr st.phone),
        (("name"), .str ("Kierowca " ++ pyShowOpt st.phone)),
        (kStatus, .str ("online")),
        (("email"), .str ("")),
        (("vehicle_model"), .str ("Nieznany")),
        (("vehicle_plate"), .str ("Nieznany")),
        (("vehicle_type"), .str ("Standardowy")),
        (("license_number"), .str ("Nieznany")),
        (("license_expiry"), .str ("Nieznany")),
        (("total_orders"), .num 0),
        (("average_rating"), .num 0),
        (("experience_years"), .num 0)]

/-- Body of `get_driver_profile` (inside its `try`). -/
def get_driver_profile_body (st : ApiState) (response : JVal) :
    Except String JVal := do
  let suc ← dGet response kSuccess
  let dat ← dGet response kData
  let sta ← dGet response kStatus
  let drv ← dGet response kDriver
  if truthyO suc && truthyO dat then
    pure (.obj [(kSuccess, .bool true), (kData, (dat.getD .null))])
  else if isStrEqO sta strSuccess && truthyO dat then
    pure (.obj [(kSuccess, .bool true), (kData, (dat.getD .null))])
  else if truthyO drv then
    pure (.obj [(kSuccess, .bool true), (kData, (drv.getD .null))])
  else
    pure (.obj [(kSuccess, .bool true), (kData, profileFallback st)])

/-- `APIService.get_driver_profile`. -/
def get_driver_profile (st : ApiState) (fetch : FetchOutcome) :
    JVal × List String :=
  let (response, reqs) := auth_fetch st ("/api/driver2/profile") fetch
  (catchJ (get_driver_profile_body st response) failMsg, reqs)

/-- Body of `get_order_details` (inside its `try`). -/
def get_order_details_body (response : JVal) : Except String JVal := do
  let suc ← dGet response kSuccess
  if truthyO suc then do
    let dat ← dGet response kData
    pure (.obj [(kSuccess, .bool true), (kData, (dat.getD .null))])
  else
    pure (.obj [(kSuccess, .bool false),
                (kMessage, .str ("Zlecenie nie znalezione"))])

/-- `APIService.get_order_details`. -/
def get_order_details (st : ApiState) (fetch : FetchOutcome)
    (order_id : Int) : JVal × List String :=
  let (response, reqs) := auth_fetch st
    ("/api/driver2/orders/" ++ toString order_id) fetch
  (catchJ (get_order_details_body response) failMsg, reqs)

/-- The fixed fallback payload of `get_order_storage_details`. -/
def orderStorageFallback (order_id : Int) : JVal :=
  .obj [(kId, .num order_id),
        (("pickup_address"), .str ("ul. Magazynowa 1")),
        (("destination_address"), .str ("ul. Docelowa 2")),
        (("price"), .str ("30.00")),
        (("distance"), .num (15 / 2)),
        (("estimated_time"), .num 20),
        (("created_at"), .str ("2024-05-20T12:00:00Z")),
        (("order_type"), .str ("VIP")),
        (("pickup_latitude"), .num (511 / 10)),
        (("pickup_longitude"), .num (111 / 5)),
        (("destination_latitude"), .num (256 / 5)),
        (("destination_longitude"), .num (223 / 10)),
        (("notes"), .str ("Uwagi do zlecenia")),
        (("payment_method"), .str ("card")),
        (("customer_name"), .str ("Anna Nowak")),
        (("customer_phone"), .str ("987654321"))]

/-- Body of `get_order_storage_details` (inside its `try`). -/
def get_order_storage_details_body (response : JVal) (order_id : Int) :
    Except String JVal := do
  let suc ← dGet response kSuccess
  if truthyO suc then do
    let dat ← dGet response kData
    pure (.obj [(kSuccess, .bool true), (kData, (dat.getD .null))])
  else
    pure (.obj [(kSuccess, .bool true), (kData, orderStorageFallback order_id)])

/-- `APIService.get_order_storage_details`. -/
def get_order_storage_details (st : ApiState) (fetch : FetchOutcome)
    (order_id : Int) : JVal × List String :=
  let (response, reqs) := auth_fetch st
    ("/api/driver2/order_storage/" ++ toString order_id) fetch
  (catchJ (get_order_storage_details_body response order_id) failMsg, reqs)

/-! ### Session management: `initialize`, `save_credentials`, `login`,
`logout`, `change_base_url` -/

/-- `APIService.initialize` (named `initService` here): stores the
credentials, stores the given base URL verbatim (or the demo default when
empty), and recomputes the Basic-auth header.  No normalization is applied
to the URL. -/
def initService (st : ApiState) (phone password : String)
    (base_url : Option String) : ApiState :=
  { st with phone := some phone, password := some password,
            base_url := some (pyOrStr base_url defaultBaseUrl),
            auth_header := some (authHeaderOf phone password) }

/-- `APIService.save_credentials`: writes phone and password, and the URL
entry whenever `base_url or self.base_url` is truthy. -/
def save_credentials (store : Store) (st : ApiState) (phone password : String)
    (base_url : Option String) : Store :=
  let s1 := (store.set kPhoneKey phone).set kPasswordKey password
  let url_to_save := pyOrStr base_url (pyOrStr st.base_url (""))
  if url_to_save = "" then s1 else s1.set kApiUrlKey url_to_save

/-- Result of a method that can mutate session state and the store. -/
structure LoginResult where
  result : JVal
  state : ApiState
  store : Store
  requests : List String

/-- `APIService.login`.  The whole body runs in one `try`; the state mutations
of `initialize` survive an exception, and the `except` branch returns
`{"success": False, "message": f"Błąd połączenia: {error}"}`. -/
def login (st : ApiState) (store : Store) (fetch : FetchOutcome)
    (phone password : String) (base_url : Option String) : LoginResult :=
  let login_base_url := pyOrStr base_url (pyOrStr st.base_url defaultBaseUrl)
  let st1 := initService st phone password (some login_base_url)
  let login_url := login_base_url ++ ("/api/driver2/status/check")
  let body : Except String (JVal × ApiState × Store) := do
    let response_data ← fetch_with_logging fetch
    let suc ← dGet response_data kSuccess
    if truthyO suc then
      let st2 := { st1 with is_logged_in := true, driver_id := some 15 }
      let store2 := save_credentials store st2 phone password
        (some login_base_url)
      pure (.obj [(kSuccess, .bool true),
                  (kMessage, .str ("Logowanie pomyślne")),
                  (kData, .obj [(kDriverId, .num 15),
                                (kPhone, .str phone),
                                (kBaseUrl, .str login_base_url)])],
            st2, store2)
    else do
      let m ← dGetD response_data kMessage (.str ("Błąd logowania"))
      pure (.obj [(kSuccess, .bool false), (kMessage, m)], st1, store)
  match body with
  | .ok (v, st2, store2) =>
      { result := v, state := st2, store := store2, requests := [login_url] }
  | .error m =>
      { result := failMsg ("Błąd połączenia: " ++ m), state := st1,
        store := store, requests := [login_url] }

/-- `APIService.logout`: best-effort server notification while logged in,
deletion of the phone and password entries (and only those), then `reset`.
Always returns `{"success": True, ...}`. -/
def logout (st : ApiState) (store : Store) (fetch : FetchOutcome) :
    LoginResult :=
  let reqs :=
    if st.is_logged_in then (auth_fetch st ("/api/driver2/logout") fetch).2
    else []
  let store2 := (store.del kPhoneKey).del kPasswordKey
  { result := .obj [(kSuccess, .bool true),
                    (kMessage, .str ("Wylogowano pomyślnie"))],
    state := resetState, store := store2, requests := reqs }

/-- The slash-removal step of `change_base_url`: strip, then drop one
trailing slash if present. -/
def cbuStripped (u : String) : String :=
  if pyEndsWith (pyStrip u) slashStr then pyDropLast (pyStrip u)
  else pyStrip u

/-- The full URL formatting of `change_base_url`: after slash removal,
prepend `https://` when neither scheme prefix is present. -/
def cbuFormat (u : String) : String :=
  if !pyStartsWith (cbuStripped u) httpPre
      && !pyStartsWith (cbuStripped u) httpsPre then
    httpsPre ++ cbuStripped u
  else cbuStripped u

/-- `APIService.change_base_url`: strips the input, removes a single trailing
slash, prepends `https://` when no scheme prefix is present, persists the
result under `api_url` and stores it in the session.  Its `except` branch
re-raises, so the `ValueError` on empty input (and any store failure)
escapes to the caller; on success the method returns the bare boolean
`True`, not a normalized dictionary. -/
def change_base_url (st : ApiState) (store : Store) (new_base_url : String) :
    Except String (Bool × ApiState × Store) :=
  if new_base_url = "" ∨ pyStrip new_base_url = "" then .error msgUrlEmpty
  else
    .ok (true, { st with base_url := some (cbuFormat new_base_url) },
         store.set kApiUrlKey (cbuFormat new_base_url))

/-! ### Retrying transport: `_make_request`

One attempt is abstracted by its outcome: a network-level exception
(`aiohttp.ClientError` / `asyncio.TimeoutError`), an unparsable body, or a
parsed response with an HTTP status.  Note the control flow of the source:
the `APIConnectionError`/`APIAuthenticationError` raised for invalid JSON and
HTTP statuses ≥ 400 inside the `try` block are caught by its own
`except Exception` clause and re-wrapped as
`APIConnectionError(f"Unexpected error: {...}")`, so only network-level
failures trigger the retry path. -/

inductive AttemptOutcome where
  | netFail : String → AttemptOutcome
  | badJson : AttemptOutcome
  | good : Nat → JVal → AttemptOutcome

/-- How one attempt is classified by the two `except` clauses. -/
inductive AttemptResult where
  | success : JVal → AttemptResult
  | network : String → AttemptResult
  | fatal : String → AttemptResult

/-- Prefix used by the `except Exception` re-wrap. -/
def unexpectedPre : String := "Unexpected error: "

/-- `str(error_msg)` for the server-provided error field. -/
def jvalMsgStr : JVal → String
  | .str s => s
  | .num n => toString n
  | .bool b => if b then "True" else "False"
  | .null => "None"
  | _ => "<json>"

/-- One iteration of the `for attempt ...` body of `_make_request`. -/
def runAttempt (endpoint : String) (o : AttemptOutcome) : AttemptResult :=
  match o with
  | .netFail m => .network m
  | .badJson =>
      .fatal (unexpectedPre ++ ("Invalid JSON response from ") ++ endpoint)
  | .good status body =>
      if status ≥ 400 then
        match body with
        | .obj fs =>
            let em := jvalMsgStr ((fs.lookup kError).getD
              (.str ("HTTP " ++ toString status)))
            if status = 401 then
              .fatal (unexpectedPre ++ ("Authentication failed: ") ++ em)
            else
              .fatal (unexpectedPre ++ ("API error ") ++ toString status ++
                (": ") ++ em)
        | _ => .fatal (unexpectedPre ++ attrErrMsg)
      else .success body

/-- Final message after the retry budget is exhausted. -/
def failedAfterMsg (retries : Nat) (m : String) : String :=
  "Failed after " ++ toString (retries + 1) ++ " attempts: " ++ m

/-- Message of the unreachable fall-through `raise` after the loop. -/
def msgUnknownReason : String := "Request failed for unknown reason"

/-- The retry loop of `_make_request`: `attempt` is the 0-based index,
`rem` the remaining iterations of `range(retries + 1)`.  Returns the result,
the number of attempts issued, and the list of backoff waits (each wait is
`retry_delay * 2 ** attempt` for the failed attempt preceding it). -/
def make_request_go (endpoint : String) (oracle : Nat → AttemptOutcome)
    (d : ℚ) (retries : Nat) : Nat → Nat → Except String JVal × Nat × List ℚ
  | _, 0 => (.error msgUnknownReason, 0, [])
  | attempt, rem + 1 =>
    match runAttempt endpoint (oracle attempt) with
    | .success v => (.ok v, 1, [])
    | .fatal m => (.error m, 1, [])
    | .network m =>
      if attempt < retries then
        let (r, n, ds) := make_request_go endpoint oracle d retries
          (attempt + 1) rem
        (r, n + 1, (d * 2 ^ attempt) :: ds)
      else (.error (failedAfterMsg retries m), 1, [])

/-- `APIService._make_request` with an explicit retry budget (the source
defaults `retries` to `self.max_retries = 3` and `retry_delay` to `1.0`). -/
def make_request (endpoint : String) (oracle : Nat → AttemptOutcome)
    (d : ℚ) (retries : Nat) : Except String JVal × Nat × List ℚ :=
  make_request_go endpoint oracle d retries 0 (retries + 1)

/-! ### The order-pool reconciler (`MapScreen.check_order_pool`)

The reconciler of src/app/src/main/python/screens/home_screen.py reads only
the `id` and `status` fields of the order dictionaries, so orders are
projected to those fields.  The pool response is the normalized dictionary
returned by `APIService.check_order_pool` projected the same way: a success
flag plus the optional `data` / `orders` lists (present exactly when
`isinstance(..., list)` holds in the source). -/

/-- An order as seen by the reconciler. -/
structure Order where
  id : Int
  status : Option String
deriving DecidableEq, Repr

/-- `not order.get('status') or order.get('status', '').lower() in
['new', 'pending']`. -/
def orderAcceptable (o : Order) : Bool :=
  match o.status with
  | none => true
  | some s => s == "" || (s.toLower == "new" || s.toLower == "pending")

/-- A pool response as read by the reconciler. -/
structure PoolResponse where
  success : Bool
  data : Option (List Order)
  orders : Option (List Order)
deriving DecidableEq, Repr

/-- The `new_pool_orders` extraction of the reconciler. -/
def extractPool (resp : PoolResponse) : List Order :=
  match resp.data with
  | some l => l
  | none =>
    match resp.orders with
    | some l => l
    | none => []

/-- The `MapScreen` fields the reconciler touches.  `openDialogs` counts the
dialog objects that have been opened and not yet dismissed (an `OrderDialog`
is opened by `show_order_dialog` and dismissed by `close_order_dialog`);
`order_dialog` is the handle the screen keeps to the current dialog. -/
structure ScreenState where
  driver_status : String
  show_pool_order : Bool
  current_pool_order : Option Order
  order_dialog : Option Order
  pool_orders : List Order
  openDialogs : Nat
deriving DecidableEq, Repr

/-- `MapScreen.__init__`: the reconciler-relevant initial state. -/
def initScreenState : ScreenState :=
  { driver_status := "offline", show_pool_order := false,
    current_pool_order := none, order_dialog := none, pool_orders := [],
    openDialogs := 0 }

/-- UI-facing events fired by one poll tick: the "order no longer available"
toast after closing the dialog, and the new-order presentation (dialog plus
toast, preceded by the notification sound). -/
inductive PoolEvent where
  | vanished : Int → PoolEvent
  | newOrder : Order → PoolEvent
deriving DecidableEq, Repr

/-- `MapScreen.show_order_dialog`: records the candidate and opens a fresh
dialog (overwriting the handle without dismissing a previous dialog). -/
def show_order_dialog (st : ScreenState) (o : Order) : ScreenState :=
  { st with current_pool_order := some o, show_pool_order := true,
            order_dialog := some o, openDialogs := st.openDialogs + 1 }

/-- `MapScreen.close_order_dialog`: dismisses the held dialog, if any, and
returns to the idle presentation. -/
def close_order_dialog (st : ScreenState) : ScreenState :=
  { st with
      openDialogs := st.openDialogs -
        (if st.order_dialog.isSome then 1 else 0),
      order_dialog := none, show_pool_order := false,
      current_pool_order := none }

/-- `MapScreen.check_order_pool`, one poll tick: offline short-circuit, the
disappearance check for a shown candidate (early `return`, skipping the
snapshot assignment), the new-candidate block guarded by
`not self.show_pool_order`, and the final `self.pool_orders =
new_pool_orders` assignment. -/
def checkOrderPoolStep (st : ScreenState) (resp : PoolResponse) :
    ScreenState × List PoolEvent :=
  if st.driver_status = "offline" then (st, [])
  else if resp.success = false then (st, [])
  else
    let new_pool := extractPool resp
    if st.show_pool_order && st.current_pool_order.isSome then
      match st.current_pool_order with
      | some cur =>
        if !(new_pool.any (fun o => o.id == cur.id)) then
          (close_order_dialog st, [.vanished cur.id])
        else
          ({ st with pool_orders := new_pool }, [])
      | none => ({ st with pool_orders := new_pool }, [])
    else
      if !new_pool.isEmpty && !st.show_pool_order then
        match new_pool.filter orderAcceptable with
        | a :: _ =>
            ({ (show_order_dialog st a) with pool_orders := new_pool },
             [.newOrder a])
        | [] => ({ st with pool_orders := new_pool }, [])
      else ({ st with pool_orders := new_pool }, [])

/-- Fold a sequence of poll responses through the reconciler. -/
def runPool (st : ScreenState) : List PoolResponse → ScreenState
  | [] => st
  | r :: rs => runPool (checkOrderPoolStep st r).1 rs

/-- Is the event a new-order presentation? -/
def isNewOrderEv : PoolEvent → Bool
  | .newOrder _ => true
  | _ => false

/-- No new-order event occurs in the list. -/
def noNewOrderEvents (l : List PoolEvent) : Bool := l.all fun e => !isNewOrderEv e

/-- Consistency of the reconciler state: the open-dialog count matches the
held handle, and the `show_pool_order` flag agrees with the candidate and the
dialog handle.  Holds for the initial state and is preserved by every tick. -/
def goodState (st : ScreenState) : Prop :=
  st.openDialogs = (if st.order_dialog.isSome then 1 else 0) ∧
  (st.show_pool_order = false → st.order_dialog = none) ∧
  (st.show_pool_order = true →
    st.order_dialog.isSome = true ∧ st.current_pool_order.isSome = true)

instance (st : ScreenState) : Decidable (goodState st) := by
  unfold goodState; infer_instance

/-- The condition under which a tick takes the early-`return` vanish path. -/
def vanishTriggered (st : ScreenState) (resp : PoolResponse) : Bool :=
  st.show_pool_order &&
    (match st.current_pool_order with
     | some cur => !((extractPool resp).any fun o => o.id == cur.id)
     | none => false)

/-- The map-screen state right after login once `fetch_driver_status` has
switched the driver online. -/
def onlineScreenState : ScreenState :=
  { initScreenState with driver_status := "online" }

/-! ### Concrete fixtures used by witnesses and counterexamples -/

/-- A fresh acceptable pool order. -/
def o7 : Order := { id := 7, status := some ("new") }

/-- A successful pool response containing `o7`. -/
def respWith7 : PoolResponse :=
  { success := true, data := some [o7], orders := none }

/-- A successful pool response with an empty snapshot. -/
def respEmptyPool : PoolResponse :=
  { success := true, data := some [], orders := none }

/-- The screen state while `o7` is being shown to the driver. -/
def stShowing7 : ScreenState :=
  { driver_status := "online", show_pool_order := true,
    current_pool_order := some o7, order_dialog := some o7,
    pool_orders := [o7], openDialogs := 1 }

/-- A dictionary with a boolean `success` field and, when it is `False`,
a `message` field: the normalized result shape of the endpoint methods. -/
def normalizedResultB (v : JVal) : Bool :=
  match jget v kSuccess with
  | some (.bool true) => true
  | some (.bool false) => (jget v kMessage).isSome
  | _ => false

/-- A session that has successfully logged in. -/
def loggedInState : ApiState :=
  { is_logged_in := true, base_url := some defaultBaseUrl,
    auth_header := some (authHeaderOf ("123456789") ("pw")),
    phone := some ("123456789"), password := some ("pw"),
    driver_id := some 15 }

/-! # Theorems -/

theorem good_step (st : ScreenState) (resp : PoolResponse)
    (h : goodState st) : goodState (checkOrderPoolStep st resp).1 := by
  obtain ⟨h1, h2, h3⟩ := h
  by_cases hoff : st.driver_status = "offline"
  · simpa [checkOrderPoolStep, hoff] using ⟨h1, h2, h3⟩
  · by_cases hs : resp.success = false
    · simpa [checkOrderPoolStep, hoff, hs] using ⟨h1, h2, h3⟩
    · by_cases hsh : st.show_pool_order = true
      · obtain ⟨hd1, hd2⟩ := h3 hsh
        cases hc : st.current_pool_order with
        | none => rw [hc] at hd2; simp at hd2
        | some cur =>
          by_cases habs :
              ((extractPool resp).any fun o => o.id == cur.id) = true
          · simp [checkOrderPoolStep, hoff, hs, hsh, hc, habs, goodState,
              h1, h2, h3, hd1, hd2]
          · simp [checkOrderPoolStep, hoff, hs, hsh, hc, habs,
              close_order_dialog, goodState, h1]
      · have hsh' : st.show_pool_order = false := by
          cases hx : st.show_pool_order
          · rfl
          · exact absurd hx hsh
        have hdia := h2 hsh'
        cases hp : (extractPool resp).filter orderAcceptable with
        | nil =>
          simp [checkOrderPoolStep, hoff, hs, hsh', hp, goodState,
            h1, h2, h3, hdia]
        | cons a rest =>
          by_cases hne : (extractPool resp).isEmpty = true
          · have : (extractPool resp).filter orderAcceptable = [] := by
              cases hq : extractPool resp with
              | nil => simp
              | cons x xs => rw [hq] at hne; simp at hne
            rw [this] at hp; cases hp
          · simp [checkOrderPoolStep, hoff, hs, hsh', hp, hne,
              show_order_dialog, goodState, h1, hdia]

theorem good_run (rs : List PoolResponse) :
    ∀ st, goodState st → goodState (runPool st rs) := by
  induction rs with
  | nil => intro st h; simpa [runPool] using h
  | cons r rs ih =>
    intro st h
    simpa [runPool] using ih _ (good_step st r h)

/-- **C1.** For every sequence of pool snapshots fed to the reconciler, at
most one candidate order is in the `Showing` state at any point (from any
consistent state, in particular the initial one, the open-dialog count never
exceeds one); while a candidate is shown, a poll tick never fires a new-order
event (it does not evaluate new candidates); and if the shown candidate's id
is absent from the successful new snapshot, the tick fires exactly one
"vanished" event and returns the reconciler to `Idle`. -/
theorem C1_single_candidate_invariant :
    (∀ st, goodState st → ∀ rs : List PoolResponse,
      goodState (runPool st rs) ∧ (runPool st rs).openDialogs ≤ 1) ∧
    (∀ st resp, st.show_pool_order = true →
      noNewOrderEvents (checkOrderPoolStep st resp).2 = true) ∧
    (∀ st resp cur, st.driver_status ≠ "offline" → resp.success = true →
      st.show_pool_order = true → st.current_pool_order = some cur →
      ((extractPool resp).any fun o => o.id == cur.id) = false →
      (checkOrderPoolStep st resp).2 = [.vanished cur.id] ∧
      (checkOrderPoolStep st resp).1.show_pool_order = false ∧
      (checkOrderPoolStep st resp).1.current_pool_order = none) := by
  refine ⟨?_, ?_, ?_⟩
  · intro st h rs
    have hg := good_run rs st h
    refine ⟨hg, ?_⟩
    rw [hg.1]
    split <;> omega
  · intro st resp hsh
    by_cases hoff : st.driver_status = "offline"
    · simp [checkOrderPoolStep, hoff, noNewOrderEvents]
    · by_cases hs : resp.success = false
      · simp [checkOrderPoolStep, hoff, hs, noNewOrderEvents]
      · cases hc : st.current_pool_order with
        | none =>
          simp [checkOrderPoolStep, hoff, hs, hsh, hc, noNewOrderEvents]
        | some cur =>
          by_cases habs :
              ((extractPool resp).any fun o => o.id == cur.id) = true
          · simp [checkOrderPoolStep, hoff, hs, hsh, hc, habs,
              noNewOrderEvents]
          · simp [checkOrderPoolStep, hoff, hs, hsh, hc, habs,
              noNewOrderEvents, isNewOrderEv]
  · intro st resp cur hoff hs hsh hc habs
    have hs' : ¬ resp.success = false := by simp [hs]
    simp [checkOrderPoolStep, hoff, hs', hsh, hc, habs,
      close_order_dialog]

theorem C1_single_candidate_invariant_witness :
    (goodState (runPool onlineScreenState [respWith7, respEmptyPool]) ∧
      (runPool onlineScreenState [respWith7, respEmptyPool]).openDialogs ≤ 1) ∧
    noNewOrderEvents (checkOrderPoolStep stShowing7 respWith7).2 = true ∧
    ((checkOrderPoolStep stShowing7 respEmptyPool).2 = [.vanished 7] ∧
     (checkOrderPoolStep stShowing7 respEmptyPool).1.show_pool_order = false ∧
     (checkOrderPoolStep stShowing7 respEmptyPool).1.current_pool_order
       = none) :=
  ⟨C1_single_candidate_invariant.1 onlineScreenState (by decide) _,
   C1_single_candidate_invariant.2.1 stShowing7 respWith7 (by decide),
   C1_single_candidate_invariant.2.2 stShowing7 respEmptyPool o7
     (by decide) (by decide) (by decide) (by decide) (by decide)⟩

/-- **C6.** While the shown candidate is still present in a successful
snapshot, a tick fires no event and only stores the snapshot; repeating the
identical poll leaves the state completely unchanged and again fires no
event — in particular the dialog handle never changes. -/
theorem C6_idempotent_repoll (st : ScreenState) (resp : PoolResponse)
    (cur : Order) (hoff : st.driver_status ≠ "offline")
    (hs : resp.success = true) (hsh : st.show_pool_order = true)
    (hc : st.current_pool_order = some cur)
    (hin : ((extractPool resp).any fun o => o.id == cur.id) = true) :
    checkOrderPoolStep st resp
      = ({ st with pool_orders := extractPool resp }, []) ∧
    checkOrderPoolStep (checkOrderPoolStep st resp).1 resp
      = ((checkOrderPoolStep st resp).1, []) := by
  have hs' : ¬ resp.success = false := by simp [hs]
  have h1 : checkOrderPoolStep st resp
      = ({ st with pool_orders := extractPool resp }, []) := by
    simp [checkOrderPoolStep, hoff, hs', hsh, hc, hin]
  refine ⟨h1, ?_⟩
  rw [h1]
  simp [checkOrderPoolStep, hoff, hs', hsh, hc, hin]

theorem C6_idempotent_repoll_witness :
    checkOrderPoolStep stShowing7 respWith7
      = ({ stShowing7 with pool_orders := extractPool respWith7 }, []) ∧
    checkOrderPoolStep (checkOrderPoolStep stShowing7 respWith7).1 respWith7
      = ((checkOrderPoolStep stShowing7 respWith7).1, []) :=
  C6_idempotent_repoll stShowing7 respWith7 o7 (by decide) (by decide)
    (by decide) (by decide) (by decide)

/-- **C9 counterexample.** On the very poll on which the shown candidate
vanishes (a successful poll with an empty snapshot), the code returns early:
it fires the vanished event but keeps the previous snapshot `[o7]` instead of
replacing it with the freshly fetched empty snapshot. -/
theorem C9_counterexample :
    (checkOrderPoolStep stShowing7 respEmptyPool).2 = [.vanished 7] ∧
    (checkOrderPoolStep stShowing7 respEmptyPool).1.pool_orders = [o7] ∧
    extractPool respEmptyPool = [] ∧
    (checkOrderPoolStep stShowing7 respEmptyPool).1.pool_orders
      ≠ extractPool respEmptyPool := by decide

/-- **C9 (amended).** On every successful poll while online, the stored pool
snapshot is replaced wholesale by the freshly fetched snapshot (never merged
field-by-field) — except on the poll on which the shown candidate vanishes,
where the handler returns early and the previous snapshot is retained. -/
theorem C9_wholesale_replacement_amended (st : ScreenState)
    (resp : PoolResponse) (hoff : st.driver_status ≠ "offline")
    (hs : resp.success = true) :
    (vanishTriggered st resp = false →
      (checkOrderPoolStep st resp).1.pool_orders = extractPool resp) ∧
    (vanishTriggered st resp = true →
      (checkOrderPoolStep st resp).1.pool_orders = st.pool_orders) := by
  have hs' : ¬ resp.success = false := by simp [hs]
  constructor
  · intro hv
    by_cases hsh : st.show_pool_order = true
    · cases hc : st.current_pool_order with
      | none =>
        simp [checkOrderPoolStep, hoff, hs', hsh, hc]
      | some cur =>
        rw [vanishTriggered, hsh, hc] at hv
        have hin : ((extractPool resp).any fun o => o.id == cur.id)
            = true := by simpa using hv
        simp [checkOrderPoolStep, hoff, hs', hsh, hc, hin]
    · have hsh' : st.show_pool_order = false := by
        cases hx : st.show_pool_order
        · rfl
        · exact absurd hx hsh
      by_cases hne : (extractPool resp).isEmpty = true
      · simp [checkOrderPoolStep, hoff, hs', hsh', hne]
      · cases hp : (extractPool resp).filter orderAcceptable with
        | nil => simp [checkOrderPoolStep, hoff, hs', hsh', hne, hp]
        | cons a rest =>
          simp [checkOrderPoolStep, hoff, hs', hsh', hne, hp,
            show_order_dialog]
  · intro hv
    rw [vanishTriggered] at hv
    have hsh : st.show_pool_order = true := by
      cases hx : st.show_pool_order
      · rw [hx] at hv; simp at hv
      · rfl
    rw [hsh] at hv
    cases hc : st.current_pool_order with
    | none => rw [hc] at hv; simp at hv
    | some cur =>
      rw [hc] at hv
      have habs : ((extractPool resp).any fun o => o.id == cur.id)
          = false := by simpa using hv
      simp [checkOrderPoolStep, hoff, hs', hsh, hc, habs,
        close_order_dialog]

theorem C9_wholesale_replacement_amended_witness :
    (checkOrderPoolStep stShowing7 respWith7).1.pool_orders
      = extractPool respWith7 :=
  (C9_wholesale_replacement_amended stShowing7 respWith7 (by decide)
    (by decide)).1 (by decide)

/-! ### Retry/backoff lemmas for `_make_request` -/

theorem mr_exhaust (endpoint : String) (oracle : Nat → AttemptOutcome)
    (d : ℚ) (retries : Nat) (ms : Nat → String) :
    ∀ rem attempt, attempt + rem = retries →
    (∀ i, attempt ≤ i → i ≤ retries → oracle i = .netFail (ms i)) →
    make_request_go endpoint oracle d retries attempt (rem + 1)
      = (.error (failedAfterMsg retries (ms retries)), rem + 1,
         (List.range' attempt rem).map fun i => d * 2 ^ i) := by
  intro rem
  induction rem with
  | zero =>
    intro attempt hsum hfail
    have ha : attempt = retries := by omega
    subst ha
    rw [make_request_go, hfail attempt le_rfl le_rfl]
    simp [runAttempt, List.range']
  | succ n ih =>
    intro attempt hsum hfail
    have hlt : attempt < retries := by omega
    rw [make_request_go, hfail attempt le_rfl (by omega)]
    simp only [runAttempt, hlt, if_pos]
    rw [ih (attempt + 1) (by omega)
      (fun i h1 h2 => hfail i (by omega) h2)]
    simp [List.range']

theorem mr_success (endpoint : String) (oracle : Nat → AttemptOutcome)
    (d : ℚ) (retries : Nat) (ms : Nat → String) (status : Nat)
    (body : JVal) :
    ∀ N attempt rem, attempt + rem = retries + 1 → attempt + N ≤ retries →
    (∀ i, attempt ≤ i → i < attempt + N → oracle i = .netFail (ms i)) →
    oracle (attempt + N) = .good status body → status < 400 →
    make_request_go endpoint oracle d retries attempt rem
      = (.ok body, N + 1, (List.range' attempt N).map fun i => d * 2 ^ i) := by
  intro N
  induction N with
  | zero =>
    intro attempt rem hsum hle hfail hsucc hst
    cases rem with
    | zero => omega
    | succ m =>
      rw [make_request_go]
      rw [show attempt + 0 = attempt from rfl] at hsucc
      rw [hsucc]
      simp [runAttempt, Nat.not_le.mpr hst, List.range']
  | succ n ih =>
    intro attempt rem hsum hle hfail hsucc hst
    cases rem with
    | zero => omega
    | succ m =>
      have hfa : oracle attempt = .netFail (ms attempt) :=
        hfail attempt le_rfl (by omega)
      rw [make_request_go, hfa]
      simp only [runAttempt, show attempt < retries by omega, if_pos]
      rw [ih (attempt + 1) m (by omega) (by omega)
        (fun i h1 h2 => hfail i (by omega) (by omega))
        (by rw [show attempt + 1 + n = attempt + (n + 1) by omega]
            exact hsucc) hst]
      simp [List.range']

/-- **C3.** With `maxRetries` configured as `retries`: `N` consecutive
network-level failures followed by a success (with `N ≤ retries`) make
`_make_request` return the success body after `N + 1` attempts, with the wait
before each retry equal to `retry_delay * 2 ^ attempt` (0-based attempt
indices); when every attempt up to the budget fails at the network level, it
fails with the network-error classification (`APIConnectionError`, message
`"Failed after {retries + 1} attempts: ..."`) after exactly `retries + 1`
attempts, with the same exponential backoff schedule. -/
theorem C3_retry_backoff :
    (∀ (endpoint : String) (oracle : Nat → AttemptOutcome) (d : ℚ)
        (retries N : Nat) (ms : Nat → String) (status : Nat) (body : JVal),
      N ≤ retries → (∀ i, i < N → oracle i = .netFail (ms i)) →
      oracle N = .good status body → status < 400 →
      make_request endpoint oracle d retries
        = (.ok body, N + 1, (List.range N).map fun i => d * 2 ^ i)) ∧
    (∀ (endpoint : String) (oracle : Nat → AttemptOutcome) (d : ℚ)
        (retries : Nat) (ms : Nat → String),
      (∀ i, i ≤ retries → oracle i = .netFail (ms i)) →
      make_request endpoint oracle d retries
        = (.error (failedAfterMsg retries (ms retries)), retries + 1,
           (List.range retries).map fun i => d * 2 ^ i)) := by
  constructor
  · intro endpoint oracle d retries N ms status body hN hfail hsucc hst
    rw [make_request, List.range_eq_range']
    exact mr_success endpoint oracle d retries ms status body N 0
      (retries + 1) (by omega) (by omega)
      (fun i h1 h2 => hfail i (by omega))
      (by simpa using hsucc) hst
  · intro endpoint oracle d retries ms hfail
    rw [make_request, List.range_eq_range']
    exact mr_exhaust endpoint oracle d retries ms retries 0 (by omega)
      (fun i h1 h2 => hfail i h2)

/-- Oracle failing twice at the network level, then succeeding. -/
def oracleW : Nat → AttemptOutcome :=
  fun i => if i < 2 then .netFail ("timeout") else .good 200 (.obj [])

/-- Oracle failing at the network level on every attempt. -/
def oracleF : Nat → AttemptOutcome := fun _ => .netFail ("conn refused")

theorem C3_retry_backoff_witness :
    make_request ("/api/health") oracleW 1 3
      = (.ok (.obj []), 3, [1, 2]) ∧
    make_request ("/api/health") oracleF 1 1
      = (.error (failedAfterMsg 1 ("conn refused")), 2, [1]) := by
  constructor
  · have h := C3_retry_backoff.1 ("/api/health") oracleW 1 3 2
      (fun _ => "timeout") 200 (.obj []) (by omega)
      (by intro i hi
          interval_cases i <;> rfl)
      (by rfl) (by omega)
    rw [h]
    norm_num [List.range_succ]
  · have h := C3_retry_backoff.2 ("/api/health") oracleF 1 1
      (fun _ => "conn refused")
      (by intro i hi; rfl)
    rw [h]
    norm_num [List.range_succ]

/-! ### Endpoint-method lemmas -/

theorem auth_fetch_json (st : ApiState) (e : String) (v : JVal)
    (h : st.is_logged_in = true) :
    auth_fetch st e (.jsonBody v) = (v, [authFetchUrl st e]) := by
  simp [auth_fetch, h, fetch_with_logging]

theorem check_order_pool_logged_in (st : ApiState)
    (h : st.is_logged_in = true) (v : JVal) :
    (check_order_pool st (.jsonBody v)).1
      = catchJ (check_order_pool_body v) poolFailHandler := by
  show catchJ (check_order_pool_body
    (auth_fetch st poolEndpoint (.jsonBody v)).1) poolFailHandler = _
  rw [auth_fetch_json st poolEndpoint v h]

/-- **C4.** While logged in, the three pool-response shapes
`{success: true, data: [...]}`, `{status: "success", orders: [...]}` and
`{success: true, orders: [...]}` all normalize to the same
`{"success": True, "data": [...]}` with identical list contents; a response
with `success` false, or with none of those fields, normalizes to
`{"success": True, "data": []}` rather than an error. -/
theorem C4_pool_normalization (st : ApiState) (h : st.is_logged_in = true)
    (l : List JVal) :
    (check_order_pool st (.jsonBody
      (.obj [(kSuccess, .bool true), (kData, .arr l)]))).1 = poolOk l ∧
    (check_order_pool st (.jsonBody
      (.obj [(kStatus, .str strSuccess), (kOrders, .arr l)]))).1 = poolOk l ∧
    (check_order_pool st (.jsonBody
      (.obj [(kSuccess, .bool true), (kOrders, .arr l)]))).1 = poolOk l ∧
    (check_order_pool st (.jsonBody
      (.obj [(kSuccess, .bool false)]))).1 = poolOk [] ∧
    (check_order_pool st (.jsonBody (.obj []))).1 = poolOk [] := by
  refine ⟨?_, ?_, ?_, ?_, ?_⟩
  · rw [check_order_pool_logged_in st h]; rfl
  · rw [check_order_pool_logged_in st h]; rfl
  · rw [check_order_pool_logged_in st h]
    cases l with
    | nil => rfl
    | cons a t => rfl
  · rw [check_order_pool_logged_in st h]; rfl
  · rw [check_order_pool_logged_in st h]; rfl

theorem C4_pool_normalization_witness :
    (check_order_pool loggedInState (.jsonBody
      (.obj [(kSuccess, .bool true), (kData, .arr [.num 1])]))).1
      = poolOk [.num 1] ∧
    (check_order_pool loggedInState (.jsonBody
      (.obj [(kStatus, .str strSuccess), (kOrders, .arr [.num 1])]))).1
      = poolOk [.num 1] ∧
    (check_order_pool loggedInState (.jsonBody
      (.obj [(kSuccess, .bool false)]))).1 = poolOk [] :=
  ⟨(C4_pool_normalization loggedInState rfl [.num 1]).1,
   (C4_pool_normalization loggedInState rfl [.num 1]).2.1,
   (C4_pool_normalization loggedInState rfl [.num 1]).2.2.2.1⟩

/-- **C5 counterexample.** Calling `check_order_pool` while logged out issues
no HTTP request, but — contrary to the claim — returns a result whose
`success` field is `True` (the `{"success": False, "message": "Nie
zalogowano"}` early return of `_auth_fetch` falls into the empty-pool
normalization branch). -/
theorem C5_counterexample :
    (check_order_pool apiInitState (.jsonBody .null)).1 = poolOk [] ∧
    jget (check_order_pool apiInitState (.jsonBody .null)).1 kSuccess
      = some (.bool true) ∧
    (check_order_pool apiInitState (.jsonBody .null)).2 = [] :=
  ⟨rfl, rfl, rfl⟩

/-- **C5 (amended).** While `is_logged_in` is false, none of the
authenticated methods issues an HTTP request; the order-action methods,
`update_location` and `update_driver_status` return
`{"success": False, "message": "Nie zalogowano"}`, but `check_order_pool`
and `get_current_orders` return `{"success": True, "data": []}` and
`get_driver_profile` returns the success-shaped fallback profile. -/
theorem C5_auth_gating_amended (st : ApiState) (fetch : FetchOutcome)
    (oid : Int) (reason status : String) (lat lon : ℚ)
    (h : st.is_logged_in = false) :
    ((check_order_pool st fetch).1 = poolOk [] ∧
      (check_order_pool st fetch).2 = []) ∧
    ((get_current_orders st fetch).1 = poolOk [] ∧
      (get_current_orders st fetch).2 = []) ∧
    ((accept_order st fetch oid).1 = failMsg msgNotLoggedIn ∧
      (accept_order st fetch oid).2 = []) ∧
    ((start_order st fetch oid).1 = failMsg msgNotLoggedIn ∧
      (start_order st fetch oid).2 = []) ∧
    ((complete_order st fetch oid).1 = failMsg msgNotLoggedIn ∧
      (complete_order st fetch oid).2 = []) ∧
    ((cancel_order st fetch oid reason).1 = failMsg msgNotLoggedIn ∧
      (cancel_order st fetch oid reason).2 = []) ∧
    ((update_driver_status st fetch status).1 = failMsg msgNotLoggedIn ∧
      (update_driver_status st fetch status).2 = []) ∧
    ((update_location st fetch lat lon).1 = failMsg msgNotLoggedIn ∧
      (update_location st fetch lat lon).2 = []) ∧
    ((get_driver_profile st fetch).1
        = .obj [(kSuccess, .bool true), (kData, profileFallback st)] ∧
      (get_driver_profile st fetch).2 = []) := by
  have ha : ∀ e : String, auth_fetch st e fetch = (notLoggedInResp, []) := by
    intro e
    simp [auth_fetch, h]
  refine ⟨⟨?_, ?_⟩, ⟨?_, ?_⟩, ⟨?_, ?_⟩, ⟨?_, ?_⟩, ⟨?_, ?_⟩, ⟨?_, ?_⟩,
    ⟨?_, ?_⟩, ⟨?_, ?_⟩, ⟨?_, ?_⟩⟩
  · show catchJ (check_order_pool_body
      (auth_fetch st poolEndpoint fetch).1) poolFailHandler = poolOk []
    rw [ha]
    try rfl
  · show (auth_fetch st poolEndpoint fetch).2 = []
    rw [ha]
    try rfl
  · show catchJ (get_current_orders_body
      (auth_fetch st ("/api/driver2/orders/current") fetch).1)
      poolFailHandler = poolOk []
    rw [ha]
    try rfl
  · show (auth_fetch st ("/api/driver2/orders/current") fetch).2 = []
    rw [ha]
    try rfl
  · show catchJ (order_action_body
      (auth_fetch st ("/api/driver2/orders/" ++ toString oid ++ "/accept")
        fetch).1
      (.obj [(kSuccess, .bool true), (kOrderId, .num oid)])
      ("Błąd akceptacji")) failMsg = failMsg msgNotLoggedIn
    rw [ha]
    try rfl
  · show (auth_fetch st ("/api/driver2/orders/" ++ toString oid ++ "/accept")
      fetch).2 = []
    rw [ha]
    try rfl
  · show catchJ (order_action_body
      (auth_fetch st ("/api/driver2/orders/" ++ toString oid ++ "/start")
        fetch).1
      (.obj [(kSuccess, .bool true)]) ("Błąd rozpoczęcia")) failMsg
      = failMsg msgNotLoggedIn
    rw [ha]
    try rfl
  · show (auth_fetch st ("/api/driver2/orders/" ++ toString oid ++ "/start")
      fetch).2 = []
    rw [ha]
    try rfl
  · show catchJ (order_action_body
      (auth_fetch st ("/api/driver2/orders/" ++ toString oid ++ "/complete")
        fetch).1
      (.obj [(kSuccess, .bool true)]) ("Błąd zakończenia")) failMsg
      = failMsg msgNotLoggedIn
    rw [ha]
    try rfl
  · show (auth_fetch st
      ("/api/driver2/orders/" ++ toString oid ++ "/complete") fetch).2 = []
    rw [ha]
    try rfl
  · show catchJ (order_action_body
      (auth_fetch st ("/api/driver2/orders/" ++ toString oid ++ "/cancel")
        fetch).1
      (.obj [(kSuccess, .bool true), (kReason, .str reason)])
      ("Błąd anulowania")) failMsg = failMsg msgNotLoggedIn
    rw [ha]
    try rfl
  · show (auth_fetch st ("/api/driver2/orders/" ++ toString oid ++ "/cancel")
      fetch).2 = []
    rw [ha]
    try rfl
  · show catchJ (order_action_body
      (auth_fetch st ("/api/driver2/status") fetch).1
      (.obj [(kSuccess, .bool true)]) ("Błąd aktualizacji statusu")) failMsg
      = failMsg msgNotLoggedIn
    rw [ha]
    try rfl
  · show (auth_fetch st ("/api/driver2/status") fetch).2 = []
    rw [ha]
    try rfl
  · show catchJ (order_action_body
      (auth_fetch st ("/api/driver2/location") fetch).1
      (.obj [(kSuccess, .bool true)]) ("Błąd aktualizacji lokalizacji"))
      failMsg = failMsg msgNotLoggedIn
    rw [ha]
    try rfl
  · show (auth_fetch st ("/api/driver2/location") fetch).2 = []
    rw [ha]
    try rfl
  · show catchJ (get_driver_profile_body st
      (auth_fetch st ("/api/driver2/profile") fetch).1) failMsg
      = .obj [(kSuccess, .bool true), (kData, profileFallback st)]
    rw [ha]
    try rfl
  · show (auth_fetch st ("/api/driver2/profile") fetch).2 = []
    rw [ha]
    try rfl

/-! ### Result-shape lemmas (C2) -/

theorem excBindOk {α β : Type} (a : α) (f : α → Except String β) :
    (Except.ok a : Except String α) >>= f = f a := rfl

theorem excBindErr {α β : Type} (e : String) (f : α → Except String β) :
    (Except.error e : Except String α) >>= f = .error e := rfl

theorem excPure {α : Type} (a : α) :
    (pure a : Except String α) = Except.ok a := rfl

theorem kMessage_ne_kSuccess : (kMessage == kSuccess) = false := by decide

theorem nrb_head_true (rest : List (String × JVal)) :
    normalizedResultB (.obj ((kSuccess, .bool true) :: rest)) = true := by
  simp [normalizedResultB, jget, List.lookup]

theorem nrb_false_msg (m : JVal) (rest : List (String × JVal)) :
    normalizedResultB
      (.obj ((kSuccess, .bool false) :: (kMessage, m) :: rest)) = true := by
  simp [normalizedResultB, jget, List.lookup, kMessage_ne_kSuccess]

theorem pool_resp_normalized (r : JVal) :
    normalizedResultB (catchJ (check_order_pool_body r) poolFailHandler)
      = true := by
  cases r
  case obj fs =>
    simp only [check_order_pool_body, dGet, excBindOk, excPure]
    split_ifs <;> simp [catchJ, nrb_head_true]
  all_goals
    simp [check_order_pool_body, dGet, excBindErr, catchJ, poolFailHandler,
      nrb_false_msg]

theorem current_resp_normalized (r : JVal) :
    normalizedResultB (catchJ (get_current_orders_body r) poolFailHandler)
      = true := by
  cases r
  case obj fs =>
    simp only [get_current_orders_body, dGet, excBindOk, excPure]
    split_ifs <;> simp [catchJ, nrb_head_true]
  all_goals
    simp [get_current_orders_body, dGet, excBindErr, catchJ, poolFailHandler,
      nrb_false_msg]

theorem action_resp_normalized (r okDict : JVal) (dm : String)
    (hok : normalizedResultB okDict = true) :
    normalizedResultB (catchJ (order_action_body r okDict dm) failMsg)
      = true := by
  cases r
  case obj fs =>
    simp only [order_action_body, dGet, dGetD, excBindOk, excPure]
    split_ifs
    · simpa [catchJ] using hok
    · simp [catchJ, nrb_false_msg]
  all_goals
    simp [order_action_body, dGet, excBindErr, catchJ, failMsg, nrb_false_msg]

theorem profile_resp_normalized (st : ApiState) (r : JVal) :
    normalizedResultB (catchJ (get_driver_profile_body st r) failMsg)
      = true := by
  cases r
  case obj fs =>
    simp only [get_driver_profile_body, dGet, excBindOk, excPure]
    split_ifs <;> simp [catchJ, nrb_head_true]
  all_goals
    simp [get_driver_profile_body, dGet, excBindErr, catchJ, failMsg,
      nrb_false_msg]

theorem details_resp_normalized (r : JVal) :
    normalizedResultB (catchJ (get_order_details_body r) failMsg) = true := by
  cases r
  case obj fs =>
    simp only [get_order_details_body, dGet, excBindOk, excPure]
    split_ifs <;> simp [catchJ, nrb_head_true, nrb_false_msg]
  all_goals
    simp [get_order_details_body, dGet, excBindErr, catchJ, failMsg,
      nrb_false_msg]

theorem storage_resp_normalized (r : JVal) (oid : Int) :
    normalizedResultB (catchJ (get_order_storage_details_body r oid) failMsg)
      = true := by
  cases r
  case obj fs =>
    simp only [get_order_storage_details_body, dGet, excBindOk, excPure]
    split_ifs <;> simp [catchJ, nrb_head_true]
  all_goals
    simp [get_order_storage_details_body, dGet, excBindErr, catchJ, failMsg,
      nrb_false_msg]

theorem login_result_normalized (st : ApiState) (store : Store)
    (fetch : FetchOutcome) (phone pw : String) (burl : Option String) :
    normalizedResultB (login st store fetch phone pw burl).result = true := by
  cases fetch with
  | raise m => exact nrb_false_msg _ _
  | jsonBody v =>
    cases v
    case obj fs =>
      simp only [login, fetch_with_logging, excBindOk, excPure, dGet, dGetD]
      split_ifs <;> simp [nrb_head_true, nrb_false_msg]
    all_goals
      simp [login, fetch_with_logging, excBindOk, excBindErr, dGet,
        failMsg, nrb_false_msg]
  | textBody ok t =>
    cases ok <;>
      simp [login, fetch_with_logging, excBindOk, excPure, dGet, dGetD,
        truthyO, pyTruthy, List.lookup, kMessage_ne_kSuccess, nrb_head_true,
        nrb_false_msg]

theorem logout_result_normalized (st : ApiState) (store : Store)
    (fetch : FetchOutcome) :
    normalizedResultB (logout st store fetch).result = true :=
  nrb_head_true _

/-- **C2 counterexample.** `change_base_url` is a public operation, and on
empty input its `except` clause re-raises the `ValueError`: the exception
escapes the method instead of a normalized `{success, message}` result. -/
theorem C2_counterexample :
    change_base_url apiInitState emptyStore ("") = .error msgUrlEmpty := rfl

/-- **C2 (amended).** With the exception of `change_base_url` (which returns
a bare boolean on success and re-raises on failure), the endpoint operations
never let an exception escape, whatever the collaborating transport does
(raise, JSON of any shape, or a text body): each returns a dictionary with a
boolean `success` that carries a `message` entry whenever `success` is
`False`. -/
theorem C2_no_exception_escape_amended (st : ApiState) (store : Store)
    (fetch : FetchOutcome) (oid : Int) (reason status phone pw : String)
    (burl : Option String) (lat lon : ℚ) :
    normalizedResultB (check_order_pool st fetch).1 = true ∧
    normalizedResultB (get_current_orders st fetch).1 = true ∧
    normalizedResultB (accept_order st fetch oid).1 = true ∧
    normalizedResultB (start_order st fetch oid).1 = true ∧
    normalizedResultB (complete_order st fetch oid).1 = true ∧
    normalizedResultB (cancel_order st fetch oid reason).1 = true ∧
    normalizedResultB (update_driver_status st fetch status).1 = true ∧
    normalizedResultB (update_location st fetch lat lon).1 = true ∧
    normalizedResultB (get_driver_profile st fetch).1 = true ∧
    normalizedResultB (get_order_details st fetch oid).1 = true ∧
    normalizedResultB (get_order_storage_details st fetch oid).1 = true ∧
    normalizedResultB (login st store fetch phone pw burl).result = true ∧
    normalizedResultB (logout st store fetch).result = true :=
  ⟨pool_resp_normalized _, current_resp_normalized _,
   action_resp_normalized _ _ _ (nrb_head_true _),
   action_resp_normalized _ _ _ (nrb_head_true _),
   action_resp_normalized _ _ _ (nrb_head_true _),
   action_resp_normalized _ _ _ (nrb_head_true _),
   action_resp_normalized _ _ _ (nrb_head_true _),
   action_resp_normalized _ _ _ (nrb_head_true _),
   profile_resp_normalized _ _, details_resp_normalized _,
   storage_resp_normalized _ _,
   login_result_normalized st store fetch phone pw burl,
   logout_result_normalized st store fetch⟩

theorem C5_auth_gating_amended_witness :
    (check_order_pool apiInitState (.raise ("boom"))).2 = [] ∧
    (accept_order apiInitState (.raise ("boom")) 1).1
      = failMsg msgNotLoggedIn :=
  ⟨(C5_auth_gating_amended apiInitState (.raise ("boom")) 1 ("r") ("online")
      52 21 rfl).1.2,
   (C5_auth_gating_amended apiInitState (.raise ("boom")) 1 ("r") ("online")
      52 21 rfl).2.2.1.1⟩

/-! ### String lemmas for base-url normalization (C7) -/

theorem isPrefixOf_append_self (l m : List Char) :
    l.isPrefixOf (l ++ m) = true := by
  induction l with
  | nil => simp [List.isPrefixOf]
  | cons a t ih => simp [List.isPrefixOf, ih]

theorem pyStartsWith_append_self (p s : String) :
    pyStartsWith (p ++ s) p = true := by
  unfold pyStartsWith
  rw [String.data_append]
  exact isPrefixOf_append_self _ _

theorem singleton_isSuffixOf_iff (c : Char) (l : List Char) :
    ([c].isSuffixOf l) = true ↔ l.getLast? = some c := by
  unfold List.isSuffixOf
  rw [← List.head?_reverse]
  have e : [c].reverse = [c] := rfl
  rw [e]
  cases l.reverse with
  | nil => simp [List.isPrefixOf]
  | cons b t =>
    constructor
    · intro hcb
      have hcb' : (c == b) = true := by
        simpa [List.isPrefixOf] using hcb
      have hceq : c = b := by simpa using hcb'
      rw [hceq]
      rfl
    · intro hh
      have hbe : b = c := by simpa using hh
      simp [List.isPrefixOf, hbe]

theorem endsWith_slash_iff (s : String) :
    pyEndsWith s slashStr = true ↔ s.data.getLast? = some ('/') := by
  have h : slashStr.data = ['/'] := rfl
  unfold pyEndsWith
  rw [h]
  exact singleton_isSuffixOf_iff _ _

theorem endsWith_slash_decomp (t : String)
    (h : pyEndsWith t slashStr = true) :
    ∃ r : List Char, t.data.reverse = '/' :: r ∧
      t.data = r.reverse ++ ['/'] ∧ (pyDropLast t).data = r.reverse := by
  rw [endsWith_slash_iff] at h
  rw [← List.head?_reverse] at h
  obtain ⟨r, hr⟩ : ∃ r, t.data.reverse = '/' :: r := by
    cases hrv : t.data.reverse with
    | nil =>
      rw [hrv] at h
      exact absurd h (by simp)
    | cons c rr =>
      rw [hrv] at h
      simp only [List.head?] at h
      have hc : c = '/' := Option.some.inj h
      subst hc
      exact ⟨rr, rfl⟩
  have ht : t.data = r.reverse ++ ['/'] := by
    have h2 := congrArg List.reverse hr
    rwa [List.reverse_reverse, List.reverse_cons] at h2
  refine ⟨r, hr, ht, ?_⟩
  show t.data.dropLast = r.reverse
  rw [ht, List.dropLast_concat]

theorem dropLast_no_slash (t : String)
    (h1 : pyEndsWith t slashStr = true)
    (h2 : pyEndsWith t doubleSlashStr = false) :
    pyEndsWith (pyDropLast t) slashStr = false := by
  obtain ⟨r, hr, ht, hd⟩ := endsWith_slash_decomp t h1
  have h2' : (['/'].isPrefixOf r) = false := by
    have e : pyEndsWith t doubleSlashStr
        = (['/', '/'].isPrefixOf t.data.reverse) := rfl
    rw [e, hr] at h2
    simpa [List.isPrefixOf] using h2
  cases hq : pyEndsWith (pyDropLast t) slashStr
  · rfl
  · exfalso
    rw [endsWith_slash_iff, hd] at hq
    rw [show r.reverse.getLast? = r.head? from by
      rw [← List.head?_reverse, List.reverse_reverse]] at hq
    cases r with
    | nil => simp at hq
    | cons c rr =>
      simp at hq
      rw [hq] at h2'
      simp [List.isPrefixOf] at h2'

theorem endsWith_slash_append (p s : String) (hs : s ≠ "") :
    pyEndsWith (p ++ s) slashStr = pyEndsWith s slashStr := by
  have hsd : s.data ≠ [] := by
    intro h
    apply hs
    cases s with
    | mk d => rw [show d = [] from h]
  apply Bool.eq_iff_iff.mpr
  rw [endsWith_slash_iff, endsWith_slash_iff, String.data_append,
    List.getLast?_append_of_ne_nil _ hsd]

theorem cbuStripped_no_trailing (u : String)
    (h2 : pyEndsWith (pyStrip u) doubleSlashStr = false) :
    pyEndsWith (cbuStripped u) slashStr = false := by
  unfold cbuStripped
  by_cases h1 : pyEndsWith (pyStrip u) slashStr = true
  · rw [if_pos h1]
    exact dropLast_no_slash _ h1 h2
  · rw [if_neg h1]
    cases hb : pyEndsWith (pyStrip u) slashStr
    · rfl
    · exact absurd hb h1

theorem cbuStripped_ne_empty (u : String) (h0 : pyStrip u ≠ "")
    (h3 : pyStrip u ≠ slashStr) : cbuStripped u ≠ "" := by
  unfold cbuStripped
  by_cases h1 : pyEndsWith (pyStrip u) slashStr = true
  · rw [if_pos h1]
    intro hemp
    apply h3
    obtain ⟨r, hr, ht, hd⟩ := endsWith_slash_decomp (pyStrip u) h1
    have hdata : (pyDropLast (pyStrip u)).data = [] := by
      rw [hemp]
    rw [hd] at hdata
    have hrnil : r = [] := by
      have h4 := congrArg List.reverse hdata
      rwa [List.reverse_reverse] at h4
    have h5 : (pyStrip u).data = ['/'] := by
      rw [ht, hrnil]
      rfl
    cases hps : pyStrip u with
    | mk d =>
      rw [hps] at h5
      rw [show d = ['/'] from h5]
      decide
  · rw [if_neg h1]
    exact h0

theorem cbuFormat_scheme (u : String) :
    pyStartsWith (cbuFormat u) httpPre = true ∨
    pyStartsWith (cbuFormat u) httpsPre = true := by
  unfold cbuFormat
  by_cases hm : (!pyStartsWith (cbuStripped u) httpPre
      && !pyStartsWith (cbuStripped u) httpsPre) = true
  · rw [if_pos hm]
    right
    exact pyStartsWith_append_self _ _
  · rw [if_neg hm]
    cases hA : pyStartsWith (cbuStripped u) httpPre
    · cases hB : pyStartsWith (cbuStripped u) httpsPre
      · exact absurd (by rw [hA, hB]; rfl) hm
      · exact Or.inr rfl
    · exact Or.inl rfl

theorem cbuFormat_no_trailing (u : String)
    (h0 : pyStrip u ≠ "")
    (h2 : pyEndsWith (pyStrip u) doubleSlashStr = false)
    (h3 : pyStrip u ≠ slashStr) :
    pyEndsWith (cbuFormat u) slashStr = false := by
  have hs := cbuStripped_no_trailing u h2
  unfold cbuFormat
  by_cases hm : (!pyStartsWith (cbuStripped u) httpPre
      && !pyStartsWith (cbuStripped u) httpsPre) = true
  · rw [if_pos hm, endsWith_slash_append _ _ (cbuStripped_ne_empty u h0 h3)]
    exact hs
  · rw [if_neg hm]
    exact hs

/-- **C7 counterexample.** `initialize` stores the supplied base URL
verbatim: after `initialize` with a URL carrying a trailing slash, the
session's `base_url` still carries the trailing slash — it is not
normalized. -/
theorem C7_counterexample :
    (initService apiInitState ("p") ("pw")
      (some ("https://example.com/"))).base_url
      = some ("https://example.com/") ∧
    pyEndsWith ("https://example.com/") slashStr = true :=
  ⟨rfl, by decide⟩

/-- **C7 (amended).** `change_base_url` is the only operation that
normalizes: its stored URL always carries an explicit scheme (`https://`
prepended when missing), and it removes a single trailing slash, so the
result has no trailing slash whenever the stripped input does not end in a
double slash and is not the bare string `"/"`.  `initialize` and `login`
store the supplied URL verbatim, without any normalization. -/
theorem C7_base_url_normalization_amended :
    (∀ (st : ApiState) (store : Store) (u : String) (b : Bool)
        (st' : ApiState) (store' : Store),
      change_base_url st store u = .ok (b, st', store') →
      b = true ∧ st'.base_url = some (cbuFormat u) ∧
        (pyStartsWith (cbuFormat u) httpPre = true ∨
          pyStartsWith (cbuFormat u) httpsPre = true) ∧
        (pyEndsWith (pyStrip u) doubleSlashStr = false →
          pyStrip u ≠ slashStr →
          pyEndsWith (cbuFormat u) slashStr = false)) ∧
    (∀ (st : ApiState) (phone pw u : String), u ≠ "" →
      (initService st phone pw (some u)).base_url = some u) ∧
    (∀ (st : ApiState) (store : Store) (fetch : FetchOutcome)
        (phone pw u : String), u ≠ "" →
      (login st store fetch phone pw (some u)).state.base_url = some u) := by
  refine ⟨?_, ?_, ?_⟩
  · intro st store u b st' store' heq
    unfold change_base_url at heq
    by_cases hc : (u = "" ∨ pyStrip u = "")
    · rw [if_pos hc] at heq
      cases heq
    · rw [if_neg hc] at heq
      have h0 : pyStrip u ≠ "" := by
        intro h
        exact hc (Or.inr h)
      simp only [Except.ok.injEq, Prod.mk.injEq] at heq
      obtain ⟨hb, hst, hstore⟩ := heq
      refine ⟨hb.symm, ?_, cbuFormat_scheme u, ?_⟩
      · rw [← hst]
      · intro h2 h3
        exact cbuFormat_no_trailing u h0 h2 h3
  · intro st phone pw u hu
    show some (pyOrStr (some u) defaultBaseUrl) = some u
    simp [pyOrStr, hu]
  · intro st store fetch phone pw u hu
    unfold login
    have hlu : pyOrStr (some u) (pyOrStr st.base_url defaultBaseUrl) = u := by
      simp [pyOrStr, hu]
    rw [hlu]
    cases hb : fetch_with_logging fetch with
    | error m =>
      show (initService st phone pw (some u)).base_url = some u
      show some (pyOrStr (some u) defaultBaseUrl) = some u
      simp [pyOrStr, hu]
    | ok v =>
      cases v
      case obj fs =>
        simp only [excBindOk, excPure, dGet, dGetD]
        split_ifs <;>
          simp [dGetD, dGet, excBindOk, excPure, initService, pyOrStr, hu]
      all_goals
        simp [excBindOk, excBindErr, dGet, initService, pyOrStr, hu]

theorem C7_base_url_normalization_amended_witness :
    ((initService apiInitState ("p") ("pw")
        (some ("https://x"))).base_url = some ("https://x")) ∧
    ((login apiInitState emptyStore (.raise ("e")) ("p") ("pw")
        (some ("https://x"))).state.base_url = some ("https://x")) ∧
    (true = true ∧
      ({ apiInitState with
          base_url := some (cbuFormat ("example.com")) } : ApiState).base_url
        = some (cbuFormat ("example.com")) ∧
      (pyStartsWith (cbuFormat ("example.com")) httpPre = true ∨
        pyStartsWith (cbuFormat ("example.com")) httpsPre = true) ∧
      (pyEndsWith (pyStrip ("example.com")) doubleSlashStr = false →
        pyStrip ("example.com") ≠ slashStr →
        pyEndsWith (cbuFormat ("example.com")) slashStr = false)) :=
  ⟨C7_base_url_normalization_amended.2.1 apiInitState ("p") ("pw")
      ("https://x") (by decide),
   C7_base_url_normalization_amended.2.2 apiInitState emptyStore
      (.raise ("e")) ("p") ("pw") ("https://x") (by decide),
   C7_base_url_normalization_amended.1 apiInitState emptyStore
      ("example.com") true
      ({ apiInitState with base_url := some (cbuFormat ("example.com")) })
      (Store.set emptyStore kApiUrlKey (cbuFormat ("example.com"))) rfl⟩

/-! ### Credential-store lemmas (C8) -/

theorem save_credentials_lookup (store : Store) (st : ApiState)
    (phone pw url : String) (hurl : url ≠ "") :
    (save_credentials store st phone pw (some url)) kPhoneKey = some phone ∧
    (save_credentials store st phone pw (some url)) kPasswordKey = some pw ∧
    (save_credentials store st phone pw (some url)) kApiUrlKey = some url ∧
    ∀ k, k ≠ kPhoneKey → k ≠ kPasswordKey → k ≠ kApiUrlKey →
      (save_credentials store st phone pw (some url)) k = store k := by
  have hu : pyOrStr (some url) (pyOrStr st.base_url ("")) = url := by
    simp [pyOrStr, hurl]
  have d1 : ¬(kPhoneKey = kApiUrlKey) := by decide
  have d2 : ¬(kPhoneKey = kPasswordKey) := by decide
  have d3 : ¬(kPasswordKey = kApiUrlKey) := by decide
  refine ⟨?_, ?_, ?_, ?_⟩
  · simp [save_credentials, Store.set, hu, hurl, d1, d2]
  · simp [save_credentials, Store.set, hu, hurl, d3]
  · simp [save_credentials, Store.set, hu, hurl]
  · intro k h1 h2 h3
    simp [save_credentials, Store.set, hu, hurl, h1, h2, h3]

theorem login_success_store (st : ApiState) (store : Store)
    (fs : List (String × JVal)) (phone pw url : String) (hurl : url ≠ "")
    (hsucc : truthyO (List.lookup kSuccess fs) = true) :
    (login st store (.jsonBody (.obj fs)) phone pw (some url)).store
      = save_credentials store
          { initService st phone pw (some url) with
            is_logged_in := true, driver_id := some 15 }
          phone pw (some url) := by
  unfold login
  have hlu : pyOrStr (some url) (pyOrStr st.base_url defaultBaseUrl)
      = url := by
    simp [pyOrStr, hurl]
  rw [hlu]
  simp only [fetch_with_logging, excBindOk, excPure, dGet]
  rw [if_pos hsucc]

/-- **C8 counterexample.** After a successful login (which writes the three
entries phone, password and api_url) followed by a logout, the `api_url`
entry is still present: logout deletes only the phone and password entries,
not all three. -/
theorem C8_counterexample :
    (logout (login apiInitState emptyStore
        (.jsonBody (.obj [(kSuccess, .bool true)])) ("123") ("pw")
        (some ("https://x"))).state
      (login apiInitState emptyStore
        (.jsonBody (.obj [(kSuccess, .bool true)])) ("123") ("pw")
        (some ("https://x"))).store
      (.jsonBody .null)).store kApiUrlKey = some ("https://x") := rfl

/-- **C8 (amended).** A successful login writes exactly the three
credential-store entries phone, password and api_url (every other key is
untouched); logout deletes only the phone and password entries, leaving the
api_url entry (and every other key) untouched. -/
theorem C8_credentials_amended :
    (∀ (st : ApiState) (store : Store) (fs : List (String × JVal))
        (phone pw url : String), url ≠ "" →
      truthyO (List.lookup kSuccess fs) = true →
      ((login st store (.jsonBody (.obj fs)) phone pw (some url)).store
          kPhoneKey = some phone ∧
       (login st store (.jsonBody (.obj fs)) phone pw (some url)).store
          kPasswordKey = some pw ∧
       (login st store (.jsonBody (.obj fs)) phone pw (some url)).store
          kApiUrlKey = some url ∧
       ∀ k, k ≠ kPhoneKey → k ≠ kPasswordKey → k ≠ kApiUrlKey →
         (login st store (.jsonBody (.obj fs)) phone pw (some url)).store k
           = store k)) ∧
    (∀ (st : ApiState) (store : Store) (fetch : FetchOutcome),
      (logout st store fetch).store kPhoneKey = none ∧
      (logout st store fetch).store kPasswordKey = none ∧
      ∀ k, k ≠ kPhoneKey → k ≠ kPasswordKey →
        (logout st store fetch).store k = store k) := by
  constructor
  · intro st store fs phone pw url hurl hsucc
    rw [login_success_store st store fs phone pw url hurl hsucc]
    exact save_credentials_lookup store _ phone pw url hurl
  · intro st store fetch
    have d1 : ¬(kPhoneKey = kPasswordKey) := by decide
    refine ⟨?_, ?_, ?_⟩
    · show ((store.del kPhoneKey).del kPasswordKey) kPhoneKey = none
      simp [Store.del, d1]
    · show ((store.del kPhoneKey).del kPasswordKey) kPasswordKey = none
      simp [Store.del]
    · intro k h1 h2
      show ((store.del kPhoneKey).del kPasswordKey) k = store k
      simp [Store.del, h1, h2]

theorem C8_credentials_amended_witness :
    (login apiInitState emptyStore (.jsonBody (.obj [(kSuccess, .bool true)]))
      ("123") ("pw") (some ("https://x"))).store kApiUrlKey
      = some ("https://x") ∧
    (logout apiInitState emptyStore (.jsonBody .null)).store kPhoneKey
      = none :=
  ⟨(C8_credentials_amended.1 apiInitState emptyStore [(kSuccess, .bool true)]
      ("123") ("pw") ("https://x") (by decide) (by decide)).2.2.1,
   (C8_credentials_amended.2 apiInitState emptyStore (.jsonBody .null)).1⟩

/-! ### Single-request lemmas (C10) -/

theorem auth_fetch_requests_le_one (st : ApiState) (e : String)
    (f : FetchOutcome) : (auth_fetch st e f).2.length ≤ 1 := by
  unfold auth_fetch
  by_cases h : st.is_logged_in = false
  · simp [h]
  · cases hf : fetch_with_logging f <;> simp [h, hf]

theorem auth_fetch_raise (st : ApiState) (e m : String)
    (h : st.is_logged_in = true) :
    auth_fetch st e (.raise m) = (failMsg m, [authFetchUrl st e]) := by
  simp [auth_fetch, h, fetch_with_logging, failMsg]

/-- **C10 counterexample.** While logged in, a transport failure during
`check_order_pool` issues exactly one request and no retry, but the returned
result is `{"success": True, "data": []}`: the transport failure is not
reported in the returned result (its message is swallowed by the empty-pool
normalization). -/
theorem C10_counterexample :
    (check_order_pool loggedInState (.raise ("Connection refused"))).2.length
      = 1 ∧
    (check_order_pool loggedInState (.raise ("Connection refused"))).1
      = poolOk [] :=
  ⟨rfl, rfl⟩

/-- **C10 (amended).** Every endpoint method routed through `_auth_fetch`
issues at most one HTTP request per call regardless of outcome, bypassing
the retrying transport entirely; on a transport failure exactly one request
is issued and no retry occurs, the method returning normally — the
order-action, status and location methods surface the failure message in
their result, while `check_order_pool`, `get_current_orders` and
`get_driver_profile` normalize the failure into their success-shaped
defaults. -/
theorem C10_single_request_amended (st : ApiState) (fetch : FetchOutcome)
    (m : String) (oid : Int) (reason status : String) (lat lon : ℚ) :
    ((check_order_pool st fetch).2.length ≤ 1 ∧
     (get_current_orders st fetch).2.length ≤ 1 ∧
     (accept_order st fetch oid).2.length ≤ 1 ∧
     (start_order st fetch oid).2.length ≤ 1 ∧
     (complete_order st fetch oid).2.length ≤ 1 ∧
     (cancel_order st fetch oid reason).2.length ≤ 1 ∧
     (update_driver_status st fetch status).2.length ≤ 1 ∧
     (update_location st fetch lat lon).2.length ≤ 1 ∧
     (get_driver_profile st fetch).2.length ≤ 1) ∧
    (st.is_logged_in = true →
      ((check_order_pool st (.raise m)).2.length = 1 ∧
       (check_order_pool st (.raise m)).1 = poolOk [] ∧
       (get_current_orders st (.raise m)).2.length = 1 ∧
       (get_current_orders st (.raise m)).1 = poolOk [] ∧
       (accept_order st (.raise m) oid).2.length = 1 ∧
       (accept_order st (.raise m) oid).1 = failMsg m ∧
       (start_order st (.raise m) oid).2.length = 1 ∧
       (start_order st (.raise m) oid).1 = failMsg m ∧
       (complete_order st (.raise m) oid).2.length = 1 ∧
       (complete_order st (.raise m) oid).1 = failMsg m ∧
       (cancel_order st (.raise m) oid reason).2.length = 1 ∧
       (cancel_order st (.raise m) oid reason).1 = failMsg m ∧
       (update_driver_status st (.raise m) status).2.length = 1 ∧
       (update_driver_status st (.raise m) status).1 = failMsg m ∧
       (update_location st (.raise m) lat lon).2.length = 1 ∧
       (update_location st (.raise m) lat lon).1 = failMsg m ∧
       (get_driver_profile st (.raise m)).2.length = 1 ∧
       (get_driver_profile st (.raise m)).1
         = .obj [(kSuccess, .bool true), (kData, profileFallback st)])) := by
  constructor
  · exact ⟨auth_fetch_requests_le_one st _ fetch,
      auth_fetch_requests_le_one st _ fetch,
      auth_fetch_requests_le_one st _ fetch,
      auth_fetch_requests_le_one st _ fetch,
      auth_fetch_requests_le_one st _ fetch,
      auth_fetch_requests_le_one st _ fetch,
      auth_fetch_requests_le_one st _ fetch,
      auth_fetch_requests_le_one st _ fetch,
      auth_fetch_requests_le_one st _ fetch⟩
  · intro h
    refine ⟨?_, ?_, ?_, ?_, ?_, ?_, ?_, ?_, ?_, ?_, ?_, ?_, ?_, ?_, ?_,
      ?_, ?_, ?_⟩
    · show (auth_fetch st poolEndpoint (.raise m)).2.length = 1
      rw [auth_fetch_raise st poolEndpoint m h]
      rfl
    · show catchJ (check_order_pool_body
        (auth_fetch st poolEndpoint (.raise m)).1) poolFailHandler
        = poolOk []
      rw [auth_fetch_raise st poolEndpoint m h]
      rfl
    · show (auth_fetch st ("/api/driver2/orders/current")
        (.raise m)).2.length = 1
      rw [auth_fetch_raise st ("/api/driver2/orders/current") m h]
      rfl
    · show catchJ (get_current_orders_body
        (auth_fetch st ("/api/driver2/orders/current") (.raise m)).1)
        poolFailHandler = poolOk []
      rw [auth_fetch_raise st ("/api/driver2/orders/current") m h]
      rfl
    · show (auth_fetch st
        ("/api/driver2/orders/" ++ toString oid ++ "/accept")
        (.raise m)).2.length = 1
      rw [auth_fetch_raise st
        ("/api/driver2/orders/" ++ toString oid ++ "/accept") m h]
      rfl
    · show catchJ (order_action_body
        (auth_fetch st ("/api/driver2/orders/" ++ toString oid ++ "/accept")
          (.raise m)).1
        (.obj [(kSuccess, .bool true), (kOrderId, .num oid)])
        ("Błąd akceptacji")) failMsg = failMsg m
      rw [auth_fetch_raise st
        ("/api/driver2/orders/" ++ toString oid ++ "/accept") m h]
      rfl
    · show (auth_fetch st
        ("/api/driver2/orders/" ++ toString oid ++ "/start")
        (.raise m)).2.length = 1
      rw [auth_fetch_raise st
        ("/api/driver2/orders/" ++ toString oid ++ "/start") m h]
      rfl
    · show catchJ (order_action_body
        (auth_fetch st ("/api/driver2/orders/" ++ toString oid ++ "/start")
          (.raise m)).1
        (.obj [(kSuccess, .bool true)]) ("Błąd rozpoczęcia")) failMsg
        = failMsg m
      rw [auth_fetch_raise st
        ("/api/driver2/orders/" ++ toString oid ++ "/start") m h]
      rfl
    · show (auth_fetch st
        ("/api/driver2/orders/" ++ toString oid ++ "/complete")
        (.raise m)).2.length = 1
      rw [auth_fetch_raise st
        ("/api/driver2/orders/" ++ toString oid ++ "/complete") m h]
      rfl
    · show catchJ (order_action_body
        (auth_fetch st
          ("/api/driver2/orders/" ++ toString oid ++ "/complete")
          (.raise m)).1
        (.obj [(kSuccess, .bool true)]) ("Błąd zakończenia")) failMsg
        = failMsg m
      rw [auth_fetch_raise st
        ("/api/driver2/orders/" ++ toString oid ++ "/complete") m h]
      rfl
    · show (auth_fetch st
        ("/api/driver2/orders/" ++ toString oid ++ "/cancel")
        (.raise m)).2.length = 1
      rw [auth_fetch_raise st
        ("/api/driver2/orders/" ++ toString oid ++ "/cancel") m h]
      rfl
    · show catchJ (order_action_body
        (auth_fetch st ("/api/driver2/orders/" ++ toString oid ++ "/cancel")
          (.raise m)).1
        (.obj [(kSuccess, .bool true), (kReason, .str reason)])
        ("Błąd anulowania")) failMsg = failMsg m
      rw [auth_fetch_raise st
        ("/api/driver2/orders/" ++ toString oid ++ "/cancel") m h]
      rfl
    · show (auth_fetch st ("/api/driver2/status") (.raise m)).2.length = 1
      rw [auth_fetch_raise st ("/api/driver2/status") m h]
      rfl
    · show catchJ (order_action_body
        (auth_fetch st ("/api/driver2/status") (.raise m)).1
        (.obj [(kSuccess, .bool true)]) ("Błąd aktualizacji statusu"))
        failMsg = failMsg m
      rw [auth_fetch_raise st ("/api/driver2/status") m h]
      rfl
    · show (auth_fetch st ("/api/driver2/location") (.raise m)).2.length = 1
      rw [auth_fetch_raise st ("/api/driver2/location") m h]
      rfl
    · show catchJ (order_action_body
        (auth_fetch st ("/api/driver2/location") (.raise m)).1
        (.obj [(kSuccess, .bool true)]) ("Błąd aktualizacji lokalizacji"))
        failMsg = failMsg m
      rw [auth_fetch_raise st ("/api/driver2/location") m h]
      rfl
    · show (auth_fetch st ("/api/driver2/profile") (.raise m)).2.length = 1
      rw [auth_fetch_raise st ("/api/driver2/profile") m h]
      rfl
    · show catchJ (get_driver_profile_body st
        (auth_fetch st ("/api/driver2/profile") (.raise m)).1) failMsg
        = .obj [(kSuccess, .bool true), (kData, profileFallback st)]
      rw [auth_fetch_raise st ("/api/driver2/profile") m h]
      rfl

theorem C10_single_request_amended_witness :
    (check_order_pool loggedInState (.jsonBody .null)).2.length ≤ 1 ∧
    (accept_order loggedInState (.raise ("boom")) 1).1
      = failMsg ("boom") :=
  ⟨(C10_single_request_amended loggedInState (.jsonBody .null) ("boom") 1
      ("r") ("online") 52 21).1.1,
   ((C10_single_request_amended loggedInState (.raise ("boom")) ("boom") 1
      ("r") ("online") 52 21).2 rfl).2.2.2.2.2.1⟩
